import Mathlib

/-
Verification of the chat-turn orchestration of the Americana audit-trail
chatbot backend against its natural-language specification.

The definitions below are a shallow embedding of the Python sources:
  * app/services/chat_service.py   (ChatService.handle_inquiry, guard_rail,
    text_2_sql, prepare_analysis_response, prepare_raw_data_response,
    load_chat_history, delete_chat_history, check_if_df_all_null_or_zero)
  * code_modules/llm_response_extractor.py (extract_json, LLMResponseExtractor)
  * code_modules/prompt_generator.py (PromptGenerator.generate_assistant_prompt)
  * code_modules/sql_queries_loader.py (SqlQueryLoader.delete_chat_queries)

External collaborators (the LLM inference client, the Oracle database, OCI
object storage) are black boxes in the source; they are modelled as oracle
records carrying the outcome of each call, and the orchestration logic around
them is translated line by line.  Python dictionaries are modelled as
insertion-ordered association lists, pandas DataFrames as a column list plus a
row list of cells, and a raised Python exception as an `Except`/`Option`
error value threaded through the control flow.
-/

namespace AuditTrail

/-! ## JSON values (integer-numeric fragment)

Values produced by `json.loads`.  Only integer numerals are modelled; the
code under verification compares extracted fields against `"yes"`, `1`, `"1"`
and uses them as strings, so the fractional fragment is never needed. -/

inductive Json where
  | null
  | bool (b : Bool)
  | num (n : Int)
  | str (s : String)
  | arr (elems : List Json)
  | obj (fields : List (String × Json))
deriving Repr, Inhabited

/-- Python truthiness of a `json.loads` result (`bool(x)`). -/
def pyTruthy : Json → Bool
  | .null => false
  | .bool b => b
  | .num n => n != 0
  | .str s => !s.isEmpty
  | .arr xs => !xs.isEmpty
  | .obj fs => !fs.isEmpty

/-- Python `==` between a decoded JSON value and an `int` literal.
Python treats `True == 1` and `False == 0` as true. -/
def pyEqInt : Json → Int → Bool
  | .num m, n => m == n
  | .bool b, n => (if b then (1 : Int) else 0) == n
  | _, _ => false

/-- Python `==` between a decoded JSON value and a `str` literal. -/
def pyEqStr : Json → String → Bool
  | .str t, s => t == s
  | _, _ => false

/-! ## DataFrames

A pandas DataFrame is modelled as its column names and its rows of cells.
A cell is null (`NaN`/`None`), numeric, or textual. -/

inductive Cell where
  | null
  | num (n : Int)
  | str (s : String)
deriving Repr, DecidableEq, Inhabited

structure DataFrame where
  cols : List String
  rows : List (List Cell)
deriving Repr, DecidableEq, Inhabited

/-- pandas `df.empty`: true when either axis has length zero. -/
def DataFrame.isEmpty (df : DataFrame) : Bool :=
  df.rows.isEmpty || df.cols.isEmpty

/-- One cell of `(df.isna()) | (df == 0)`: null cells and numeric zeros
count, text cells never compare equal to `0` in Python. -/
def cellNullOrZero : Cell → Bool
  | .null => true
  | .num n => n == 0
  | .str _ => false

/-- chat_service.check_if_df_all_null_or_zero:
`((df.isna()) | (df == 0)).all().all()` — true iff every cell of the frame
is null or zero (vacuously true on an empty frame, as in pandas). -/
def check_if_df_all_null_or_zero (df : DataFrame) : Bool :=
  df.rows.all (fun row => row.all cellNullOrZero)

/-- At least one cell of the frame is non-null and non-zero. -/
def hasNonNullNonZero (df : DataFrame) : Bool :=
  df.rows.any (fun row => row.any (fun c => !cellNullOrZero c))

/-! ## Python dicts as insertion-ordered association lists -/

/-- `d.get(k)` / `d.get(k, None)`. -/
def dictGet? {α : Type} : List (String × α) → String → Option α
  | [], _ => none
  | (k₀, v₀) :: rest, k => if k₀ == k then some v₀ else dictGet? rest k

/-- `d[k] = v`: replace in place when the key exists, else append. -/
def dictSet {α : Type} : List (String × α) → String → α → List (String × α)
  | [], k, v => [(k, v)]
  | (k₀, v₀) :: rest, k, v =>
    if k₀ == k then (k, v) :: rest else (k₀, v₀) :: dictSet rest k v

/-- `del d[k]`: `some` of the shrunken dict, or `none` for a `KeyError`. -/
def dictDel? {α : Type} : List (String × α) → String → Option (List (String × α))
  | [], _ => none
  | (k₀, v₀) :: rest, k =>
    if k₀ == k then some rest else (dictDel? rest k).map (fun m => (k₀, v₀) :: m)

/-- `k in d`. -/
def dictHasKey {α : Type} (m : List (String × α)) (k : String) : Bool :=
  (dictGet? m k).isSome

/-! ## Application state and payloads -/

/-- One in-memory chat-log entry (`{"role": ..., "message": ...}`). -/
structure Msg where
  role : String
  message : String
deriving Repr, DecidableEq, Inhabited

/-- The shared mutable state the service reads and writes.  The source
accesses both an attribute `last_sql_queries` (read in `handle_inquiry`,
written by `load_chat_history`) and a distinct attribute `last_sql_query`
(written in `handle_inquiry`); both are modelled. -/
structure AppState where
  user_chats : List (String × List String) := []
  chat_history : List (String × List Msg) := []
  last_sql_queries : List (String × Option String) := []
  last_sql_query : List (String × String) := []
  last_chat_id : String := ""
deriving Repr, DecidableEq, Inhabited

/-- Content of one frontend chat-history entry: plain text, or the records
of a re-executed sql-artifact message. -/
inductive MsgContent where
  | text (s : String)
  | records (rs : List (List Cell))
deriving Repr, DecidableEq, Inhabited

structure FrontMsg where
  role : String
  content : MsgContent
deriving Repr, DecidableEq, Inhabited

/-- The response dictionaries the service returns.  Each optional field is
present (`some`) exactly when the corresponding key is in the Python dict. -/
structure Payload where
  status : Nat
  chat_id : Option String := none
  llm_response : Option String := none
  user_query : Option String := none
  sql_query : Option String := none
  results_df : Option (List (List Cell)) := none
  scenario : Option String := none
  diagram : Option (Option String) := none
  file_path : Option String := none
  error_message : Option String := none
  systen_message : Option String := none
  system_response : Option (List FrontMsg) := none
  message : Option String := none
deriving Repr, DecidableEq, Inhabited

/-- Observable side effects of one turn (LLM text-to-SQL call, database
query execution, durable persistence). -/
inductive Effect where
  | sqlGen
  | sqlExec (query : String)
  | persist (statement : String)
deriving Repr, DecidableEq, Inhabited

/-- Outcomes of the external calls made during one `handle_inquiry` turn:
`guard` is the pair extracted from the guardrail inference,
`metadata` the string built by `prepare_metadata_string` (file reads may
raise), `text2sql` the `(sql_query, scenario, error_status)` triple from
`text_2_sql`, and `exec` the DataFrame from `execute_query_df`.
An `Except.error` value means the call raised. -/
structure TurnOracle where
  guard : Except String (Json × Json)
  metadata : Except String String
  text2sql : Except String (String × String × Json)
  exec : Except String DataFrame

/-- Result of one turn: returned payload, state after the turn, performed
effects, and — when an unexpected exception was caught by the top-level
handler — the text of that exception. -/
structure TurnResult where
  payload : Payload
  state : AppState
  effects : List Effect
  raised : Option String
deriving Repr, DecidableEq, Inhabited

/-- The `final_response` initialised at the top of `handle_inquiry`
before the `try` block:
`{"chat_id": chat_id, "llm_response": "Failed due to error", "user_query": "", "status": 0}`.
Because this dict is non-empty, the `if not final_response` test inside the
`except` handler is never true, so this exact dict is what every
unexpected-exception run returns. -/
def initFailurePayload (chat_id : String) : Payload :=
  { status := 0
    chat_id := some chat_id
    llm_response := some "Failed due to error"
    user_query := some "" }

/-- Modelled from the spec: the contents of `prompts/chatbot_start.txt`
(the prompt template files are not under src/); the spec describes it as
"constant system-role text defining the assistant's persona/instructions". -/
def main_prompt_text : String :=
  "You are a conversational BI assistant for the audit-trail data warehouse."

/-- The TypeError raised at source line 297: `generate_assistant_prompt`
is declared with parameters `(sql_query, df)` but invoked as
`generate_assistant_prompt(sql_query, selected_df, scenario)`. -/
def assistantPromptArityError : String :=
  "TypeError: generate_assistant_prompt() takes 2 positional arguments but 3 were given"

/-- Source lines 274-297 of chat_service.py: context management followed by
the assistant-prompt construction.  The context-management writes mutate the
shared state; the subsequent three-argument call of the two-parameter
`generate_assistant_prompt` raises a TypeError on every run that reaches it
(and the nested `del last_sql_query_of_chat[last_chat_id]` can itself raise
`KeyError` first), so control always lands in the top-level `except` with
`final_response` still holding its initial value. -/
def contextAndInference (chat_id sql_query : String) (st : AppState)
    (effs : List Effect) : TurnResult :=
  -- app_state.last_sql_query[chat_id] = sql_query
  let st1 : AppState :=
    { st with last_sql_query := dictSet st.last_sql_query chat_id sql_query }
  if st1.last_chat_id == chat_id then
    ⟨initFailurePayload chat_id, st1, effs, some assistantPromptArityError⟩
  else
    -- chat_history[chat_id] = [{"role": "Assistant", "message": main_prompt}]
    let ch1 := dictSet st1.chat_history chat_id [⟨"Assistant", main_prompt_text⟩]
    -- if last_chat_id and last_chat_id in chat_history:
    if st1.last_chat_id != "" && dictHasKey ch1 st1.last_chat_id then
      let ch2 := (dictDel? ch1 st1.last_chat_id).getD ch1
      match dictDel? st1.last_sql_queries st1.last_chat_id with
      | none =>
        -- KeyError from `del last_sql_query_of_chat[last_chat_id]`
        ⟨initFailurePayload chat_id, { st1 with chat_history := ch2 }, effs,
          some ("KeyError: " ++ st1.last_chat_id)⟩
      | some lsq2 =>
        let st2 : AppState :=
          { st1 with
            chat_history := ch2
            last_sql_queries := lsq2
            last_chat_id := chat_id }
        ⟨initFailurePayload chat_id, st2, effs, some assistantPromptArityError⟩
    else
      ⟨initFailurePayload chat_id,
        { st1 with chat_history := ch1, last_chat_id := chat_id },
        effs, some assistantPromptArityError⟩

/-- ChatService.handle_inquiry (chat_service.py lines 195-329), with the
guardrail, metadata-assembly, text-to-SQL and execution calls supplied by
the oracle.  Short-circuits (`raise JumpToFinally()`) return the payload
assigned just before the raise; unexpected exceptions return the
pre-initialised failure payload, because `final_response` is never falsy. -/
def handle_inquiry (chat_id user_message : String) (st : AppState)
    (o : TurnOracle) : TurnResult :=
  match o.guard with
  | .error e => ⟨initFailurePayload chat_id, st, [], some e⟩
  | .ok (relevant, _tables) =>
    if !pyEqStr relevant "yes" then
      ⟨{ status := 2
         chat_id := some chat_id
         llm_response := some "Query rejected by guardrail due to irrelevance."
         user_query := some user_message }, st, [], none⟩
    else
      -- last_sql_query = app_state.last_sql_queries.get(chat_id, None)
      let _last_sql := dictGet? st.last_sql_queries chat_id
      match o.metadata with
      | .error e => ⟨initFailurePayload chat_id, st, [], some e⟩
      | .ok _metadata_string =>
        match o.text2sql with
        | .error e => ⟨initFailurePayload chat_id, st, [Effect.sqlGen], some e⟩
        | .ok (sql_query, _scenario, error_status) => -- scenario is only read after line 297, which always raises
          -- if error_status == 1 or error_status == "1":
          if pyEqInt error_status 1 || pyEqStr error_status "1" then
            ⟨{ status := 2
               chat_id := some chat_id
               llm_response := some "Failed to generate query as it extends beyond the scope of Data , Please try with another query."
               user_query := some user_message }, st, [Effect.sqlGen], none⟩
          else
            match o.exec with
            | .error e =>
              ⟨initFailurePayload chat_id, st,
                [Effect.sqlGen, Effect.sqlExec sql_query], some e⟩
            | .ok selected_df =>
              let effs := [Effect.sqlGen, Effect.sqlExec sql_query]
              -- if selected_df.empty or df_is_empty:
              if selected_df.isEmpty || check_if_df_all_null_or_zero selected_df then
                ⟨{ status := 3
                   chat_id := some chat_id
                   llm_response := some "No data found for following search"
                   sql_query := some sql_query }, st, effs, none⟩
              else
                contextAndInference chat_id sql_query st effs

/-! ## Response shaping (chat_service.py lines 331-406) -/

/-- The pre-authenticated-request base URL interpolated in
`prepare_analysis_response` for uploaded diagrams. -/
def diagram_url_base : String :=
  "https://objectstorage.me-dubai-1.oraclecloud.com/p/8UZ_uL16hYp51Ecx3l4iRL1KjSr6cHvCEnK-tSSZoUFZ7BoWsDXfov5ql4JW_bBE/n/bmb8tbvmgtsy/b/bucket-convbirealestate/o/User_downloadable_objects/Diagrams/"

/-- The corresponding base URL for uploaded CSV exports in
`prepare_raw_data_response`. -/
def excel_url_base : String :=
  "https://objectstorage.me-dubai-1.oraclecloud.com/p/8UZ_uL16hYp51Ecx3l4iRL1KjSr6cHvCEnK-tSSZoUFZ7BoWsDXfov5ql4JW_bBE/n/bmb8tbvmgtsy/b/bucket-convbirealestate/o/User_downloadable_objects/Excels/"

/-- ChatService.prepare_analysis_response.  `plot_paths` stands for the list
returned by `generate_categorical_plots` (matplotlib rendering is opaque
here); the upload to object storage and the local file removal are pure side
effects with no influence on the returned dict.
`results_df = selected_df.to_dict(orient="records")` takes EVERY row. -/
def prepare_analysis_response (selected_df : DataFrame) (scenario sql_query : String)
    (plot_paths : List String) (message : String) : Payload :=
  let results_df := selected_df.rows
  match plot_paths with
  | [] =>
    { status := 1
      results_df := some results_df
      scenario := some scenario
      llm_response := some message
      diagram := some none
      sql_query := some sql_query }
  | p :: _ =>
    -- plot_path = plot_path.split('/')[-1]
    let fname := (p.splitOn "/").getLastD p
    { status := 1
      results_df := some results_df
      scenario := some scenario
      llm_response := some message
      diagram := some (some (diagram_url_base ++ fname))
      sql_query := some sql_query }

/-- ChatService.prepare_raw_data_response.  `timestamp` stands for
`datetime.now().strftime("%Y%m%d_%H%M%S")`; the CSV write, upload and local
removal are side effects with no influence on the returned dict.
`results_df = selected_df.head(10).to_dict(orient="records")` keeps only the
first 10 rows. -/
def prepare_raw_data_response (selected_df : DataFrame) (scenario sql_query : String)
    (timestamp : String) (message : String) : Payload :=
  let results_df := selected_df.rows.take 10
  let filename := "property_sales_" ++ timestamp ++ ".csv"
  { status := 1
    results_df := some results_df
    file_path := some (excel_url_base ++ filename)
    scenario := some scenario
    llm_response := some message
    sql_query := some sql_query }

/-! ## Assistant explanation prompt (prompt_generator.py lines 50-79) -/

/-- Rendering of one cell in the `to_dict(orient="records")` output. -/
def renderCell : Cell → String
  | .null => "None"
  | .num n => toString n
  | .str s => s

/-- Rendering of one record dict of the `to_dict(orient="records")` output. -/
def renderRow (cols : List String) (row : List Cell) : String :=
  String.intercalate ", "
    ((List.zip cols row).map (fun p => p.1 ++ ": " ++ renderCell p.2))

/-- Textual form of `to_dict(orient="records")` as interpolated by
`str.format` into the prompt template. -/
def renderRecords (cols : List String) (rows : List (List Cell)) : String :=
  String.intercalate "; " (rows.map (renderRow cols))

/-- Modelled from the spec: the `prompts/chatbot_assistant.txt` template (the
prompt template files are not under src/).  The spec says the prompt "embeds
the executed SQL and a row sample (full result if ≤25 rows, else first 10)
plus row/column counts"; the template therefore carries one placeholder for
each of `sql_query`, `data_records`, `num_records` and `num_fields`, exactly
the keyword arguments supplied by `str.format` in the source. -/
def chatbot_assistant_template (sql_query data_records : String)
    (num_records num_fields : Nat) : String :=
  "Executed SQL:\n" ++ sql_query ++
  "\nData records: " ++ data_records ++
  "\nNumber of records: " ++ toString num_records ++
  "\nNumber of fields: " ++ toString num_fields

/-- PromptGenerator.generate_assistant_prompt: include every record when the
frame has at most 25 rows, else only the first 10, and always pass the row
and column counts to the template. -/
def generate_assistant_prompt (sql_query : String) (df : DataFrame) : String :=
  let num_records := df.rows.length
  let num_fields := df.cols.length
  let input_df := if num_records ≤ 25 then df.rows else df.rows.take 10
  chatbot_assistant_template sql_query (renderRecords df.cols input_df)
    num_records num_fields

/-- `needle` occurs as a contiguous substring of `hay`. -/
def containsStr (hay needle : String) : Prop :=
  List.IsInfix needle.data hay.data

/-! ## llm_response_extractor.py — extract_json

`extract_json` strips the text, then tries in order:
Case 1: `re.search(r"(three backticks)json\s*(\{.*?\})\s*(three backticks)", text, re.DOTALL)`
        and, when a match exists, `json.loads` of its lazily-matched group;
Case 2: `re.search(r"\{.*\}", text, re.DOTALL)` (greedy: first opening brace
        to last closing brace) and `json.loads` of the whole match;
Case 3: `json.loads` of the whole text.
A `json.loads` failure inside Case 1 or Case 2 propagates: the later cases
are NOT tried.  The regex semantics are implemented below over `List Char`. -/

/-- Python regex `\s` character class (also the default `str.strip` set). -/
def pyIsSpace (c : Char) : Bool :=
  c == ' ' || c == '\t' || c == '\n' || c == '\r' || c == '\x0b' || c == '\x0c'

/-- `text.strip()`. -/
def pyStrip (cs : List Char) : List Char :=
  ((cs.dropWhile pyIsSpace).reverse.dropWhile pyIsSpace).reverse

/-- Opening and closing brace characters (codepoints 123 and 125). -/
def lbrace : Char := Char.ofNat 123

def rbrace : Char := Char.ofNat 125

/-! ### A model of `json.loads` (integer-numeric fragment)

Recursive-descent parser over the character list, fueled by the input
length.  Fractional/exponent numerals and `\u` escapes are outside the
modelled fragment (the parser rejects them); every concrete input used by a
theorem below stays inside the fragment, and the structural theorems relate
`extract_json` to this same parser on both sides. -/

/-- JSON insignificant whitespace. -/
def jsonWs (c : Char) : Bool :=
  c == ' ' || c == '\t' || c == '\n' || c == '\r'

def jsonSkipWs (cs : List Char) : List Char :=
  cs.dropWhile jsonWs

/-- Match a literal at the head of the input, returning the rest. -/
def dropLit : List Char → List Char → Option (List Char)
  | [], cs => some cs
  | _, [] => none
  | l :: ls, c :: cs => if c == l then dropLit ls cs else none

/-- Parse the body of a JSON string after its opening quote, returning the
decoded characters and the rest of the input (after the closing quote). -/
def parseStringBody : Nat → List Char → Option (List Char × List Char)
  | 0, _ => none
  | _, [] => none
  | fuel + 1, c :: cs =>
    if c == '"' then some ([], cs)
    else if c == '\\' then
      match cs with
      | [] => none
      | e :: cs₁ =>
        let dec : Option Char :=
          if e == '"' then some '"'
          else if e == '\\' then some '\\'
          else if e == '/' then some '/'
          else if e == 'n' then some '\n'
          else if e == 't' then some '\t'
          else if e == 'r' then some '\r'
          else if e == 'b' then some (Char.ofNat 8)
          else if e == 'f' then some (Char.ofNat 12)
          else none
        match dec with
        | none => none
        | some d => (parseStringBody fuel cs₁).map (fun p => (d :: p.1, p.2))
    else (parseStringBody fuel cs).map (fun p => (c :: p.1, p.2))

/-- Longest digit run at the head of the input. -/
def parseDigits : List Char → List Char × List Char
  | [] => ([], [])
  | c :: cs =>
    if c.isDigit then
      let p := parseDigits cs
      (c :: p.1, p.2)
    else ([], c :: cs)

def digitsToNat (ds : List Char) : Nat :=
  ds.foldl (fun acc c => acc * 10 + (c.toNat - 48)) 0

/-- Parse an integer numeral (optional minus sign, no leading zeros, no
fractional part or exponent). -/
def parseIntLit (cs : List Char) : Option (Int × List Char) :=
  let negSplit : Bool × List Char :=
    match cs with
    | c :: r => if c == '-' then (true, r) else (false, cs)
    | [] => (false, [])
  let ds := (parseDigits negSplit.2).1
  let rest := (parseDigits negSplit.2).2
  if ds.isEmpty then none
  else if ds.length > 1 && ds.headD '0' == '0' then none
  else
    match rest with
    | c :: _ =>
      if c == '.' || c == 'e' || c == 'E' then none
      else some ((if negSplit.1 then -(digitsToNat ds : Int) else (digitsToNat ds : Int)), rest)
    | [] => some ((if negSplit.1 then -(digitsToNat ds : Int) else (digitsToNat ds : Int)), [])

mutual

/-- Parse one JSON value, returning it and the unconsumed rest. -/
def parseValue : Nat → List Char → Option (Json × List Char)
  | 0, _ => none
  | fuel + 1, cs =>
    match jsonSkipWs cs with
    | [] => none
    | c :: rest =>
      if c == lbrace then
        match jsonSkipWs rest with
        | d :: rest₁ =>
          if d == rbrace then some (Json.obj [], rest₁)
          else (parseMembers fuel (d :: rest₁)).map (fun p => (Json.obj p.1, p.2))
        | [] => none
      else if c == '[' then
        match jsonSkipWs rest with
        | d :: rest₁ =>
          if d == ']' then some (Json.arr [], rest₁)
          else (parseElems fuel (d :: rest₁)).map (fun p => (Json.arr p.1, p.2))
        | [] => none
      else if c == '"' then
        (parseStringBody (fuel + 1) rest).map (fun p => (Json.str (String.mk p.1), p.2))
      else if c == 't' then
        (dropLit "rue".data rest).map (fun r => (Json.bool true, r))
      else if c == 'f' then
        (dropLit "alse".data rest).map (fun r => (Json.bool false, r))
      else if c == 'n' then
        (dropLit "ull".data rest).map (fun r => (Json.null, r))
      else
        (parseIntLit (c :: rest)).map (fun p => (Json.num p.1, p.2))

/-- Parse the members of an object (positioned at the first key), consuming
the closing brace. -/
def parseMembers : Nat → List Char → Option (List (String × Json) × List Char)
  | 0, _ => none
  | fuel + 1, cs =>
    match jsonSkipWs cs with
    | c :: rest =>
      if c == '"' then
        match parseStringBody (fuel + 1) rest with
        | some (key, r₁) =>
          match jsonSkipWs r₁ with
          | d :: r₂ =>
            if d == ':' then
              match parseValue fuel r₂ with
              | some (v, r₃) =>
                match jsonSkipWs r₃ with
                | e :: r₄ =>
                  if e == ',' then
                    (parseMembers fuel r₄).map
                      (fun p => ((String.mk key, v) :: p.1, p.2))
                  else if e == rbrace then some ([(String.mk key, v)], r₄)
                  else none
                | [] => none
              | none => none
            else none
          | [] => none
        | none => none
      else none
    | [] => none

/-- Parse the elements of an array (positioned at the first element),
consuming the closing bracket. -/
def parseElems : Nat → List Char → Option (List Json × List Char)
  | 0, _ => none
  | fuel + 1, cs =>
    match parseValue fuel cs with
    | some (v, r₁) =>
      match jsonSkipWs r₁ with
      | e :: r₂ =>
        if e == ',' then
          (parseElems fuel r₂).map (fun p => (v :: p.1, p.2))
        else if e == ']' then some ([v], r₂)
        else none
      | [] => none
    | none => none

end

/-- `json.loads` on a character list: parse one value and require that only
whitespace remains (otherwise Python raises "Extra data"). -/
def parseJsonChars (cs : List Char) : Option Json :=
  match parseValue (cs.length + 1) cs with
  | some (j, rest) => if (jsonSkipWs rest).isEmpty then some j else none
  | none => none

/-! ### Case 1 — the fenced-block regex -/

def fenceOpenLit : List Char := "```json".data

def fenceCloseLit : List Char := "```".data

/-- After the candidate group-closing brace: `\s*` then the closing fence. -/
def closeAfter (cs : List Char) : Bool :=
  (dropLit fenceCloseLit (cs.dropWhile pyIsSpace)).isSome

/-- Lazy extension of the group `\{.*?\}`: called on the characters after
the opening brace, it returns the group remainder ending at the FIRST
closing brace whose suffix completes the pattern. -/
def lazyGroupEnd : List Char → Option (List Char)
  | [] => none
  | c :: cs =>
    if c == rbrace && closeAfter cs then some [c]
    else (lazyGroupEnd cs).map (fun g => c :: g)

/-- Attempt to complete the fenced pattern right after an occurrence of the
opening fence: `\s*` (deterministic — whitespace and brace are disjoint),
then the lazily-matched brace group. -/
def fencedAt (cs : List Char) : Option (List Char) :=
  match cs.dropWhile pyIsSpace with
  | c :: rest =>
    if c == lbrace then (lazyGroupEnd rest).map (fun g => c :: g) else none
  | [] => none

/-- `re.search` for the fenced pattern: try each occurrence of the opening
fence left to right and return the first completed match's group. -/
def fencedSearch : List Char → Option (List Char)
  | [] => none
  | c :: cs =>
    match dropLit fenceOpenLit (c :: cs) with
    | some rest =>
      match fencedAt rest with
      | some g => some g
      | none => fencedSearch cs
    | none => fencedSearch cs

/-! ### Case 2 — the embedded-JSON regex -/

/-- Longest prefix of the input ending at the LAST closing brace
(inclusive); `none` when no closing brace occurs. -/
def upToLastClose : List Char → Option (List Char)
  | [] => none
  | c :: cs =>
    match upToLastClose cs with
    | some g => some (c :: g)
    | none => if c == rbrace then some [c] else none

/-- `re.search(r"\{.*\}", text, re.DOTALL)`: greedy match from the first
opening brace to the last closing brace after it.  When no closing brace
follows the first opening brace, none follows any later one either, so the
whole pattern fails. -/
def embeddedSearch : List Char → Option (List Char)
  | [] => none
  | c :: cs =>
    if c == lbrace then
      (upToLastClose cs).map (fun g => c :: g)
    else embeddedSearch cs

/-- extract_json (llm_response_extractor.py lines 8-28).  `none` models a
raised exception (`json.JSONDecodeError` from whichever `json.loads` call
fails, with no fallback to a later case). -/
def extract_json (text : String) : Option Json :=
  let cs := pyStrip text.data
  match fencedSearch cs with
  | some g => parseJsonChars g
  | none =>
    match embeddedSearch cs with
    | some e => parseJsonChars e
    | none => parseJsonChars cs

/-- LLMResponseExtractor.set_data succeeds exactly when `extract_json`
does not raise. -/
def set_data_ok (text : String) : Bool :=
  (extract_json text).isSome

/-- Follows the spec's words for claim C7, strategy (b): SOME brace-delimited
substring of the text — a contiguous substring that starts with an opening
brace and ends with a closing brace — is valid structured data.  (The spec
asks for the first such substring; for refuting the claim, existence of any
one suffices.) -/
def specStrategyB (cs : List Char) : Prop :=
  ∃ pre mid post, cs = pre ++ mid ++ post ∧
    mid.head? = some lbrace ∧ mid.getLast? = some rbrace ∧
    (parseJsonChars mid).isSome

/-! ## load_chat_history (chat_service.py lines 461-538) -/

/-- One row of the CHAT_MESSAGES history query. -/
structure HistoryRow where
  message_no : Int
  role : String
  message : String
deriving Repr, DecidableEq, Inhabited

/-- Outcomes of the external calls made by `load_chat_history`: the history
SELECT itself, and the re-execution of each sql-artifact message for the
frontend view. -/
structure LoadOracle where
  history : Except String (List HistoryRow)
  execSql : String → Except String DataFrame

/-- Stable insertion by MESSAGE_NO. -/
def insertByNo (r : HistoryRow) : List HistoryRow → List HistoryRow
  | [] => [r]
  | x :: xs =>
    if r.message_no < x.message_no then r :: x :: xs else x :: insertByNo r xs

/-- `chat_history_df.sort_values(by=["MESSAGE_NO"])`.  (pandas' default sort
is not stability-guaranteed; no claim proved below depends on tie order.) -/
def sortByMessageNo : List HistoryRow → List HistoryRow
  | [] => []
  | r :: rest => insertByNo r (sortByMessageNo rest)

/-- `row["ROLE"].upper() == "SQL"`. -/
def roleIsSql (r : HistoryRow) : Bool :=
  String.mk (r.role.data.map Char.toUpper) == "SQL"

/-- The loop of lines 490-508: build the frontend view (sql-artifact rows
replaced by their re-executed records) and the in-memory view (non-sql rows
verbatim).  A failing re-execution raises out of the loop. -/
def buildViews (o : LoadOracle) : List HistoryRow → Except String (List FrontMsg × List Msg)
  | [] => .ok ([], [])
  | r :: rest =>
    if roleIsSql r then
      match o.execSql r.message with
      | .error e => .error e
      | .ok df =>
        (buildViews o rest).map
          (fun p => (⟨r.role, .records df.rows⟩ :: p.1, p.2))
    else
      (buildViews o rest).map
        (fun p => (⟨r.role, .text r.message⟩ :: p.1, ⟨r.role, r.message⟩ :: p.2))

/-- ChatService.load_chat_history.  On success it overwrites the in-memory
log and last-SQL entry for `chat_id` and sets the user's known-chats entry
to the one-element list `[chat_id]` (lines 522-525 first read
`app_state.user_chats.get(user_id)` and then immediately discard that value:
`user_chat_histories = [chat_id]`). -/
def load_chat_history (user_id chat_id : String) (st : AppState)
    (o : LoadOracle) : Payload × AppState :=
  match o.history with
  | .error e =>
    ({ status := 0, chat_id := some chat_id, error_message := some e }, st)
  | .ok rows =>
    if rows.isEmpty then
      -- note the source's literal key "systen_message" and non-interpolated
      -- braces: the string is not an f-string
      ({ status := 0
         chat_id := some chat_id
         systen_message := some "No chat history found for chat_id \x7bchat_id\x7d" }, st)
    else
      let sorted := sortByMessageNo rows
      match buildViews o sorted with
      | .error e =>
        ({ status := 0, chat_id := some chat_id, error_message := some e }, st)
      | .ok (frontEnd, stateMsgs) =>
        let lastSql := (sorted.filter roleIsSql).getLast?
        let st₁ : AppState :=
          { st with
            chat_history :=
              dictSet st.chat_history chat_id (⟨"Assistant", main_prompt_text⟩ :: stateMsgs)
            last_sql_queries :=
              dictSet st.last_sql_queries chat_id (lastSql.map (fun r => r.message))
            user_chats := dictSet st.user_chats user_id [chat_id] }
        ({ status := 1, chat_id := some chat_id, system_response := some frontEnd }, st₁)

/-! ## delete_chat_history (chat_service.py lines 595-613) -/

/-- SqlQueryLoader.delete_chat_queries, key "delete_chat_history". -/
def delete_chat_history_sql (chat_id : String) : String :=
  "DELETE FROM CHAT_MESSAGES WHERE chat_id = \x27" ++ chat_id ++ "\x27"

/-- SqlQueryLoader.delete_chat_queries, key "delete_chat_preview". -/
def delete_chat_preview_sql (chat_id : String) : String :=
  "DELETE FROM USER_CHATS WHERE chat_id = \x27" ++ chat_id ++ "\x27"

structure DeleteResult where
  payload : Payload
  state : AppState
  /-- The non-query statements run through `execute_single_non_query`, in
  order.  That method commits each statement before returning (oracle
  adb handler lines 93-122), so these stay durably applied even when a later
  step of the loop raises. -/
  executed : List String
deriving Repr, DecidableEq, Inhabited

/-- The per-chat loop of `delete_chat_history`: run (and commit) the two
durable deletes for the chat, then drop its two in-memory entries — either
`del` raises `KeyError` when the key is absent, aborting the loop with the
durable deletes already committed. -/
def delete_loop : List String → AppState → List String →
    Option String × AppState × List String
  | [], st, log => (none, st, log)
  | c :: rest, st, log =>
    let log₁ := log ++ [delete_chat_history_sql c, delete_chat_preview_sql c]
    match dictDel? st.chat_history c with
    | none => (some ("KeyError: " ++ c), st, log₁)
    | some ch =>
      match dictDel? st.last_sql_queries c with
      | none => (some ("KeyError: " ++ c), { st with chat_history := ch }, log₁)
      | some lsq =>
        delete_loop rest { st with chat_history := ch, last_sql_queries := lsq } log₁

/-- ChatService.delete_chat_history. -/
def delete_chat_history (user_id : String) (chat_ids : List String)
    (st : AppState) : DeleteResult :=
  match delete_loop chat_ids st [] with
  | (some e, st₁, log) =>
    ⟨{ status := 0, error_message := some e }, st₁, log⟩
  | (none, st₁, log) =>
    ⟨{ status := 1
       message := some ("Deleted " ++ toString chat_ids.length ++
         " chat history for user " ++ user_id) }, st₁, log⟩

/-! ## Association-list lemmas -/

theorem dictGet?_dictSet {α : Type} (m : List (String × α)) (k : String) (v : α) :
    dictGet? (dictSet m k v) k = some v := by
  induction m with
  | nil => simp [dictSet, dictGet?]
  | cons p rest ih =>
    obtain ⟨k₀, v₀⟩ := p
    by_cases h : k₀ = k
    · simp [dictSet, dictGet?, h]
    · simpa [dictSet, dictGet?, h] using ih

theorem dictDel?_isSome_of_hasKey {α : Type} (m : List (String × α)) (k : String)
    (h : dictHasKey m k = true) : ∃ m₁, dictDel? m k = some m₁ := by
  induction m with
  | nil => simp [dictHasKey, dictGet?] at h
  | cons p rest ih =>
    obtain ⟨k₀, v₀⟩ := p
    by_cases hk : k₀ = k
    · exact ⟨rest, by simp [dictDel?, hk]⟩
    · have h₁ : dictHasKey rest k = true := by
        simpa [dictHasKey, dictGet?, hk] using h
      obtain ⟨m₁, hm₁⟩ := ih h₁
      exact ⟨(k₀, v₀) :: m₁, by simp [dictDel?, hk, hm₁]⟩

theorem dictDel?_eq_none_of_not_hasKey {α : Type} (m : List (String × α)) (k : String)
    (h : dictHasKey m k = false) : dictDel? m k = none := by
  induction m with
  | nil => simp [dictDel?]
  | cons p rest ih =>
    obtain ⟨k₀, v₀⟩ := p
    by_cases hk : k₀ = k
    · simp [dictHasKey, dictGet?, hk] at h
    · have h₁ : dictHasKey rest k = false := by
        simpa [dictHasKey, dictGet?, hk] using h
      simp [dictDel?, hk, ih h₁]

theorem dictDel?_preserves_not_hasKey {α : Type} (m m₁ : List (String × α)) (k₁ k₂ : String)
    (hdel : dictDel? m k₁ = some m₁) (h : dictHasKey m k₂ = false) :
    dictHasKey m₁ k₂ = false := by
  induction m generalizing m₁ with
  | nil => simp [dictDel?] at hdel
  | cons p rest ih =>
    obtain ⟨k₀, v₀⟩ := p
    have hk₂ : ¬ k₀ = k₂ := by
      intro hc
      simp [dictHasKey, dictGet?, hc] at h
    have hrest : dictHasKey rest k₂ = false := by
      simpa [dictHasKey, dictGet?, hk₂] using h
    by_cases hk : k₀ = k₁
    · have hm : m₁ = rest := by
        have := hdel
        simp [dictDel?, hk] at this
        exact this.symm
      simpa [hm] using hrest
    · rcases hrec : dictDel? rest k₁ with _ | m₂
      · simp [dictDel?, hk, hrec] at hdel
      · have hm : m₁ = (k₀, v₀) :: m₂ := by
          have := hdel
          simp [dictDel?, hk, hrec] at this
          exact this.symm
        have hm₂ := ih m₂ hrec hrest
        simp [hm, dictHasKey, dictGet?, hk₂]
        simpa [dictHasKey, dictGet?] using hm₂

/-! ## Facts about the turn state machine -/

/-- Every run that survives the empty check ends in the top-level handler
with the pre-initialised failure payload, because of the three-argument call
of the two-parameter `generate_assistant_prompt`. -/
theorem contextAndInference_payload (chat_id sql_query : String) (st : AppState)
    (effs : List Effect) :
    (contextAndInference chat_id sql_query st effs).payload = initFailurePayload chat_id := by
  simp only [contextAndInference]
  split
  · rfl
  · split
    · split <;> rfl
    · rfl

theorem contextAndInference_raised (chat_id sql_query : String) (st : AppState)
    (effs : List Effect) :
    (contextAndInference chat_id sql_query st effs).raised.isSome = true := by
  simp only [contextAndInference]
  split
  · rfl
  · split
    · split <;> rfl
    · rfl

theorem contextAndInference_effects (chat_id sql_query : String) (st : AppState)
    (effs : List Effect) :
    (contextAndInference chat_id sql_query st effs).effects = effs := by
  simp only [contextAndInference]
  split
  · rfl
  · split
    · split <;> rfl
    · rfl

/-- Claim C1: whenever the extracted guardrail relevance flag is anything
other than the exact string "yes", `handle_inquiry` returns the rejection
payload (status 2 with chat_id, rejection llm_response and the user query),
leaves the shared state untouched, and performs no SQL generation, no SQL
execution and no persistence (the effect trace is empty). -/
theorem C1_guardrail_short_circuit (chat_id user_message : String) (st : AppState)
    (o : TurnOracle) (relevant tables : Json)
    (hg : o.guard = .ok (relevant, tables))
    (hrel : pyEqStr relevant "yes" = false) :
    handle_inquiry chat_id user_message st o =
      ⟨{ status := 2
         chat_id := some chat_id
         llm_response := some "Query rejected by guardrail due to irrelevance."
         user_query := some user_message }, st, [], none⟩ := by
  simp [handle_inquiry, hg, hrel]

def C1oracle : TurnOracle :=
  ⟨.ok (Json.str "no", Json.arr []), .ok "", .ok ("", "", Json.num 0), .ok ⟨[], []⟩⟩

theorem C1_guardrail_short_circuit_witness :
    pyEqStr (Json.str "no") "yes" = false ∧
    handle_inquiry "c1" "tell me a joke" {} C1oracle =
      ⟨{ status := 2
         chat_id := some "c1"
         llm_response := some "Query rejected by guardrail due to irrelevance."
         user_query := some "tell me a joke" }, {}, [], none⟩ :=
  ⟨by decide,
   C1_guardrail_short_circuit "c1" "tell me a joke" {} C1oracle
     (Json.str "no") (Json.arr []) rfl (by decide)⟩

/-- In a frame whose rows all have as many cells as there are columns, one
non-null non-zero cell defeats both halves of the emptiness test. -/
theorem nonNullNonZero_not_empty (df : DataFrame)
    (hw : ∀ r ∈ df.rows, r.length = df.cols.length)
    (h : hasNonNullNonZero df = true) :
    (df.isEmpty || check_if_df_all_null_or_zero df) = false := by
  simp only [hasNonNullNonZero, List.any_eq_true, Bool.not_eq_true'] at h
  obtain ⟨row, hrow, cell, hcell, hnz⟩ := h
  simp only [Bool.or_eq_false_iff]
  constructor
  · have hrows : df.rows ≠ [] := by
      intro hc
      rw [hc] at hrow
      exact absurd hrow (List.not_mem_nil row)
    have hcols : df.cols ≠ [] := by
      intro hc
      have hlen := hw row hrow
      rw [hc] at hlen
      simp at hlen
      rw [hlen] at hcell
      exact absurd hcell (List.not_mem_nil cell)
    simp [DataFrame.isEmpty, hrows, hcols]
  · simp only [check_if_df_all_null_or_zero]
    rw [Bool.eq_false_iff]
    simp only [ne_eq, List.all_eq_true]
    intro hall
    have hc := hall row hrow cell hcell
    rw [hnz] at hc
    exact Bool.false_ne_true hc

/-- Claim C2: downstream of a guardrail pass and an error-free SQL
generation, an executed result set with zero rows or with every cell
null-or-zero yields exactly the status-3 "No data found for following
search" payload carrying the SQL text, while a result set containing some
non-null non-zero cell never yields status 3. -/
theorem C2_empty_check (chat_id user_message : String) (st : AppState)
    (o : TurnOracle) (relevant tables : Json) (meta sql scen : String)
    (es : Json) (df : DataFrame)
    (hg : o.guard = .ok (relevant, tables))
    (hrel : pyEqStr relevant "yes" = true)
    (hm : o.metadata = .ok meta)
    (ht : o.text2sql = .ok (sql, scen, es))
    (hes : (pyEqInt es 1 || pyEqStr es "1") = false)
    (hx : o.exec = .ok df) :
    ((df.rows = [] ∨ check_if_df_all_null_or_zero df = true) →
      (handle_inquiry chat_id user_message st o).payload =
        { status := 3
          chat_id := some chat_id
          llm_response := some "No data found for following search"
          sql_query := some sql }) ∧
    ((∀ r ∈ df.rows, r.length = df.cols.length) → hasNonNullNonZero df = true →
      (handle_inquiry chat_id user_message st o).payload.status ≠ 3) := by
  constructor
  · intro h
    have hcond : (df.isEmpty || check_if_df_all_null_or_zero df) = true := by
      rcases h with h | h
      · simp [DataFrame.isEmpty, h]
      · simp [h]
    simp [handle_inquiry, hg, hrel, hm, ht, hes, hx, hcond]
  · intro hw hnz
    have hcond := nonNullNonZero_not_empty df hw hnz
    simp [handle_inquiry, hg, hrel, hm, ht, hes, hx, hcond,
      contextAndInference_payload, initFailurePayload]

def C2oracle : TurnOracle :=
  ⟨.ok (Json.str "yes", Json.arr [Json.str "sales"]), .ok "META",
   .ok ("SELECT city, total FROM sales", "summary", Json.num 0),
   .ok ⟨["CITY", "TOTAL"], [[.str "Dubai", .num 0], [.null, .num 0]]⟩⟩

theorem C2_empty_check_witness :
    check_if_df_all_null_or_zero ⟨["CITY", "TOTAL"], [[.str "Dubai", .num 0], [.null, .num 0]]⟩
      = false ∧
    (handle_inquiry "c1" "Show me total sales by city" {} C2oracle).payload.status ≠ 3 :=
  ⟨by decide,
   (C2_empty_check "c1" "Show me total sales by city" {} C2oracle
      (Json.str "yes") (Json.arr [Json.str "sales"]) "META"
      "SELECT city, total FROM sales" "summary" (Json.num 0)
      ⟨["CITY", "TOTAL"], [[.str "Dubai", .num 0], [.null, .num 0]]⟩
      rfl (by decide) rfl rfl (by decide) rfl).2
     (by decide) (by decide)⟩

/-! ### Claim C3 -/

/-- The concrete scenario of claim C3: guardrail passes with tables=[sales],
SQL generation returns a SELECT with error_status 0, and execution returns
three rows with non-zero totals. -/
def C3df : DataFrame :=
  ⟨["CITY", "TOTAL_SALES"],
   [[.str "Dubai", .num 120], [.str "Sharjah", .num 80], [.str "Abu Dhabi", .num 95]]⟩

def C3oracle : TurnOracle :=
  ⟨.ok (Json.str "yes", Json.arr [Json.str "sales"]),
   .ok "### TABLE: SALES",
   .ok ("SELECT city, SUM(total) AS total_sales FROM sales GROUP BY city", "summary", Json.num 0),
   .ok C3df⟩

/-- Claim C3 (code bug): on the claim's own happy-path scenario the turn
does NOT return status 1.  Every run that survives the empty check reaches
`generate_assistant_prompt(sql_query, selected_df, scenario)` — a
three-argument call of a method declared with `(sql_query, df)` — so a
TypeError lands in the top-level handler, which returns the pre-initialised
status-0 payload with llm_response "Failed due to error". -/
theorem C3_happy_path_hits_arity_bug :
    (handle_inquiry "c1" "Show me total sales by city" {} C3oracle).payload =
      initFailurePayload "c1" ∧
    (handle_inquiry "c1" "Show me total sales by city" {} C3oracle).payload.status = 0 ∧
    (handle_inquiry "c1" "Show me total sales by city" {} C3oracle).raised =
      some assistantPromptArityError := by
  refine ⟨?_, ?_, ?_⟩ <;> decide

/-! ### Claim C4 -/

def C4oracle : TurnOracle :=
  ⟨.ok (Json.str "yes", Json.arr [Json.str "sales"]), .ok "META",
   .ok ("SELECT 1 FROM DUAL", "summary", Json.num 2),
   .ok ⟨["N"], [[.num 5]]⟩⟩

/-- Claim C4 counterexample: the error flag `2` is truthy in Python, yet the
code's test is `error_status == 1 or error_status == "1"`, so the turn does
NOT short-circuit: SQL execution is attempted (an `sqlExec` effect occurs)
and the returned status is not 2. -/
theorem C4_counterexample :
    pyTruthy (Json.num 2) = true ∧
    (handle_inquiry "c1" "q" {} C4oracle).effects =
      [Effect.sqlGen, Effect.sqlExec "SELECT 1 FROM DUAL"] ∧
    (handle_inquiry "c1" "q" {} C4oracle).payload.status ≠ 2 := by
  refine ⟨rfl, ?_, ?_⟩
  · have h := contextAndInference_effects "c1" "SELECT 1 FROM DUAL" {}
      [Effect.sqlGen, Effect.sqlExec "SELECT 1 FROM DUAL"]
    exact h
  · decide

/-- Claim C4 as amended: the short-circuit fires exactly for an error flag
that compares Python-equal to the integer 1 (which includes the boolean
true) or equal to the string "1"; for those flags the turn returns the
status-2 out-of-scope payload and no SQL execution effect is performed. -/
theorem C4_error_flag_short_circuit (chat_id user_message : String) (st : AppState)
    (o : TurnOracle) (relevant tables : Json) (meta sql scen : String) (es : Json)
    (hg : o.guard = .ok (relevant, tables))
    (hrel : pyEqStr relevant "yes" = true)
    (hm : o.metadata = .ok meta)
    (ht : o.text2sql = .ok (sql, scen, es))
    (hes : (pyEqInt es 1 || pyEqStr es "1") = true) :
    handle_inquiry chat_id user_message st o =
      ⟨{ status := 2
         chat_id := some chat_id
         llm_response := some "Failed to generate query as it extends beyond the scope of Data , Please try with another query."
         user_query := some user_message }, st, [Effect.sqlGen], none⟩ := by
  simp [handle_inquiry, hg, hrel, hm, ht, hes]

def C4oracleFlagOne : TurnOracle :=
  ⟨.ok (Json.str "yes", Json.arr [Json.str "sales"]), .ok "META",
   .ok ("", "", Json.num 1), .ok ⟨["N"], [[.num 5]]⟩⟩

theorem C4_error_flag_short_circuit_witness :
    handle_inquiry "c1" "q" {} C4oracleFlagOne =
      ⟨{ status := 2
         chat_id := some "c1"
         llm_response := some "Failed to generate query as it extends beyond the scope of Data , Please try with another query."
         user_query := some "q" }, {}, [Effect.sqlGen], none⟩ :=
  C4_error_flag_short_circuit "c1" "q" {} C4oracleFlagOne
    (Json.str "yes") (Json.arr [Json.str "sales"]) "META" "" "" (Json.num 1)
    rfl (by decide) rfl rfl (by decide)

/-! ### Claim C5 -/

/-- Claim C5 as amended: every unexpected exception is caught once at the
top level and converted into the status-0 payload — but that payload is the
FIXED dict initialised before the `try` block (llm_response "Failed due to
error", user_query ""); the error text is never included, because the
`if not final_response` guard in the handler can never be true. -/
theorem C5_top_level_handler (chat_id user_message : String) (st : AppState)
    (o : TurnOracle) (e : String)
    (h : (handle_inquiry chat_id user_message st o).raised = some e) :
    (handle_inquiry chat_id user_message st o).payload = initFailurePayload chat_id := by
  rcases o with ⟨g, m, t, ex⟩
  rcases g with eg | ⟨relevant, tables⟩
  · rfl
  · cases hrel : pyEqStr relevant "yes" with
    | false => simp [handle_inquiry, hrel] at h
    | true =>
      rcases m with em | mv
      · simp [handle_inquiry, hrel]
      · rcases t with et | ⟨sql, scen, es⟩
        · simp [handle_inquiry, hrel]
        · cases herr : (pyEqInt es 1 || pyEqStr es "1") with
          | true => simp [handle_inquiry, hrel, herr] at h
          | false =>
            rcases ex with ee | df
            · simp [handle_inquiry, hrel, herr]
            · cases hemp : (df.isEmpty || check_if_df_all_null_or_zero df) with
              | true => simp [handle_inquiry, hrel, herr, hemp] at h
              | false =>
                simp [handle_inquiry, hrel, herr, hemp, contextAndInference_payload]

def C5oracleBoom : TurnOracle :=
  ⟨.error "boom", .ok "", .ok ("", "", Json.num 0), .ok ⟨[], []⟩⟩

theorem C5_top_level_handler_witness :
    (handle_inquiry "c1" "fail" {} C5oracleBoom).payload = initFailurePayload "c1" :=
  C5_top_level_handler "c1" "fail" {} C5oracleBoom "boom" rfl

def C5oracleOther : TurnOracle :=
  ⟨.error "a completely different failure", .ok "", .ok ("", "", Json.num 0), .ok ⟨[], []⟩⟩

/-- Claim C5 counterexample: two runs whose only difference is the text of
the raised exception ("boom" vs. "a completely different failure") return
byte-identical payloads, whose llm_response is the fixed string "Failed due
to error" — which does not contain the error text — and whose user_query is
the empty string rather than the user's query "fail".  The underlying
error's text is therefore never surfaced in the payload. -/
theorem C5_counterexample :
    (handle_inquiry "c1" "fail" {} C5oracleBoom).raised = some "boom" ∧
    (handle_inquiry "c1" "fail" {} C5oracleBoom).payload =
      (handle_inquiry "c1" "fail" {} C5oracleOther).payload ∧
    (handle_inquiry "c1" "fail" {} C5oracleBoom).payload.llm_response =
      some "Failed due to error" ∧
    ¬ containsStr "Failed due to error" "boom" ∧
    (handle_inquiry "c1" "fail" {} C5oracleBoom).payload.user_query = some "" := by
  refine ⟨rfl, rfl, rfl, ?_, rfl⟩
  unfold containsStr
  decide

/-! ### Claim C6 -/

/-- An eleven-row result frame. -/
def C6df : DataFrame :=
  ⟨["N"], (List.range 11).map (fun i => [Cell.num (Int.ofNat i)])⟩

/-- Claim C6 counterexample: the analysis branch builds `results_df` with
`selected_df.to_dict(orient="records")` — no `head(10)` — so a status-1
analysis payload for an eleven-row result carries eleven row records. -/
theorem C6_counterexample :
    (prepare_analysis_response C6df "summary" "SELECT N FROM T" [] "msg").status = 1 ∧
    ((prepare_analysis_response C6df "summary" "SELECT N FROM T" [] "msg").results_df.getD []).length = 11 ∧
    ¬ ((prepare_analysis_response C6df "summary" "SELECT N FROM T" [] "msg").results_df.getD []).length ≤ 10 := by
  refine ⟨rfl, rfl, ?_⟩
  decide

/-- Claim C6 as amended: only the raw-data branch truncates — its status-1
payload's `results_df` is the first 10 rows of the executed result set; the
analysis branch's status-1 payload carries every row, with no 10-row cap. -/
theorem C6_results_df_by_branch (df : DataFrame) (scen sql ts msg : String)
    (plots : List String) :
    (prepare_raw_data_response df scen sql ts msg).results_df = some (df.rows.take 10) ∧
    (prepare_raw_data_response df scen sql ts msg).status = 1 ∧
    (prepare_analysis_response df scen sql plots msg).results_df = some df.rows ∧
    (prepare_analysis_response df scen sql plots msg).status = 1 := by
  refine ⟨rfl, rfl, ?_, ?_⟩ <;> cases plots <;> rfl

/-! ### Claim C8 -/

/-- Claim C8: the assistant explanation prompt embeds the rendering of the
full row set when the frame has at most 25 rows (otherwise of the first 10
rows only), and always embeds the frame's row count and column count. -/
theorem C8_assistant_prompt_contents (sql : String) (df : DataFrame) :
    containsStr (generate_assistant_prompt sql df)
      (renderRecords df.cols (if df.rows.length ≤ 25 then df.rows else df.rows.take 10)) ∧
    containsStr (generate_assistant_prompt sql df) (toString df.rows.length) ∧
    containsStr (generate_assistant_prompt sql df) (toString df.cols.length) := by
  refine ⟨?_, ?_, ?_⟩
  · refine ⟨("Executed SQL:\n").data ++ sql.data ++ ("\nData records: ").data,
      ("\nNumber of records: ").data ++ (toString df.rows.length).data ++
        ("\nNumber of fields: ").data ++ (toString df.cols.length).data, ?_⟩
    simp [generate_assistant_prompt, chatbot_assistant_template, String.data_append]
  · refine ⟨("Executed SQL:\n").data ++ sql.data ++ ("\nData records: ").data ++
      (renderRecords df.cols (if df.rows.length ≤ 25 then df.rows else df.rows.take 10)).data ++
        ("\nNumber of records: ").data,
      ("\nNumber of fields: ").data ++ (toString df.cols.length).data, ?_⟩
    simp [generate_assistant_prompt, chatbot_assistant_template, String.data_append]
  · refine ⟨("Executed SQL:\n").data ++ sql.data ++ ("\nData records: ").data ++
      (renderRecords df.cols (if df.rows.length ≤ 25 then df.rows else df.rows.take 10)).data ++
        ("\nNumber of records: ").data ++ (toString df.rows.length).data ++
        ("\nNumber of fields: ").data, [], ?_⟩
    simp [generate_assistant_prompt, chatbot_assistant_template, String.data_append]

/-! ### Claim C7 -/

/-- The input refuting claim C7: it contains the brace-delimited substring
`\x7b"a": 1\x7d`, which is valid JSON, but the code's single greedy
embedded match runs from the first opening brace to the LAST closing brace
(`\x7b"a": 1\x7d y \x7bb\x7d`), which fails to parse, and no fallback is
tried. -/
def C7badInput : String := "x \x7b\"a\": 1\x7d y \x7bb\x7d z"

/-- Claim C7 counterexample: the text holds a brace-delimited substring
that is valid structured data (the spec's strategy (b) locates a payload),
yet `extract_json` raises. -/
theorem C7_counterexample :
    specStrategyB (pyStrip C7badInput.data) ∧ extract_json C7badInput = none := by
  constructor
  · refine ⟨"x ".data, "\x7b\"a\": 1\x7d".data, " y \x7bb\x7d z".data, ?_, ?_, ?_, ?_⟩
    · decide
    · decide
    · decide
    · decide
  · rfl

/-- Claim C7 as amended: the extractor's cases are committed, not
fallback-chained on parse failure — `set_data` succeeds iff (a) a fenced
match exists and ITS lazily-matched group parses, or (b) no fenced match
exists but the greedy first-opening-brace-to-last-closing-brace match exists
and parses, or (c) neither regex matches and the whole stripped text parses.
A parse failure inside case (a) or (b) is final even when a later case (or
another brace-delimited substring) would have parsed. -/
theorem C7_extract_json_committed_cases (text : String) :
    (extract_json text).isSome = true ↔
      ((∃ g, fencedSearch (pyStrip text.data) = some g ∧ (parseJsonChars g).isSome = true) ∨
       (fencedSearch (pyStrip text.data) = none ∧
         ∃ e, embeddedSearch (pyStrip text.data) = some e ∧ (parseJsonChars e).isSome = true) ∨
       (fencedSearch (pyStrip text.data) = none ∧ embeddedSearch (pyStrip text.data) = none ∧
         (parseJsonChars (pyStrip text.data)).isSome = true)) := by
  unfold extract_json
  cases hf : fencedSearch (pyStrip text.data) with
  | some g => simp [hf]
  | none =>
    cases he : embeddedSearch (pyStrip text.data) with
    | some m => simp [hf, he]
    | none => simp [hf, he]

/-! ### Claim C9 -/

/-- Claim C9: a successful `load_chat_history(user_id, chat_id)` leaves the
known-chats entry for that user equal to exactly the one-element list
`[chat_id]` — whatever list the in-memory map previously held for that user
is discarded, not appended to (lines 522-525 read the previous value and
immediately overwrite the variable with `[chat_id]`). -/
theorem C9_load_resets_user_chats (user_id chat_id : String) (st : AppState)
    (o : LoadOracle)
    (hs : (load_chat_history user_id chat_id st o).1.status = 1) :
    dictGet? (load_chat_history user_id chat_id st o).2.user_chats user_id =
      some [chat_id] := by
  cases hh : o.history with
  | error e => simp [load_chat_history, hh] at hs
  | ok rows =>
    cases hre : rows.isEmpty with
    | true => simp [load_chat_history, hh, hre] at hs
    | false =>
      cases hb : buildViews o (sortByMessageNo rows) with
      | error e => simp [load_chat_history, hh, hre, hb] at hs
      | ok p =>
        obtain ⟨f, s⟩ := p
        simp [load_chat_history, hh, hre, hb, dictGet?_dictSet]

def C9oracle : LoadOracle :=
  ⟨.ok [⟨1, "User", "hello"⟩, ⟨2, "System", "hi there"⟩], fun _ => .ok ⟨[], []⟩⟩

def C9state : AppState := { user_chats := [("u1", ["old1", "old2"])] }

theorem C9_load_resets_user_chats_witness :
    dictGet? (load_chat_history "u1" "c9" C9state C9oracle).2.user_chats "u1" =
      some ["c9"] :=
  C9_load_resets_user_chats "u1" "c9" C9state C9oracle (by decide)

/-! ### Claim C10 -/

/-- Claim C10: `delete_chat_history` is not atomic on error.  It walks the
chat ids sequentially and, for each, runs (and commits — `conn.commit()` is
issued inside `execute_single_non_query`) the two durable DELETE statements
BEFORE touching the in-memory maps.  When a listed chat id is absent from
the in-memory chat-history map, the `del` raises `KeyError`, the method
returns a status-0 error payload — yet the durable deletes for that chat id
and for every earlier chat id in the list have already been committed and
are not restored. -/
theorem C10_delete_not_atomic (user_id c₁ c₂ : String) (st : AppState)
    (h₁ : dictHasKey st.chat_history c₁ = true)
    (h₁q : dictHasKey st.last_sql_queries c₁ = true)
    (h₂ : dictHasKey st.chat_history c₂ = false) :
    (delete_chat_history user_id [c₁, c₂] st).payload.status = 0 ∧
    (delete_chat_history user_id [c₁, c₂] st).executed =
      [delete_chat_history_sql c₁, delete_chat_preview_sql c₁,
       delete_chat_history_sql c₂, delete_chat_preview_sql c₂] := by
  obtain ⟨ch, hch⟩ := dictDel?_isSome_of_hasKey _ _ h₁
  obtain ⟨lsq, hlsq⟩ := dictDel?_isSome_of_hasKey _ _ h₁q
  have h₂del : dictDel? ch c₂ = none :=
    dictDel?_eq_none_of_not_hasKey _ _
      (dictDel?_preserves_not_hasKey _ _ _ _ hch h₂)
  constructor <;> simp [delete_chat_history, delete_loop, hch, hlsq, h₂del]

def C10state : AppState :=
  { chat_history := [("chatA", [⟨"User", "hello"⟩])]
    last_sql_queries := [("chatA", some "SELECT 1 FROM DUAL")] }

theorem C10_delete_not_atomic_witness :
    (delete_chat_history "u1" ["chatA", "chatB"] C10state).payload.status = 0 ∧
    (delete_chat_history "u1" ["chatA", "chatB"] C10state).executed =
      [delete_chat_history_sql "chatA", delete_chat_preview_sql "chatA",
       delete_chat_history_sql "chatB", delete_chat_preview_sql "chatB"] :=
  C10_delete_not_atomic "u1" "chatA" "chatB" C10state (by decide) (by decide) (by decide)

end AuditTrail
